import Mathlib

/-!
# Verification of the APPA membership fee calculator (src/script.js)

A shallow embedding of the fee-lookup and CSV-loading logic of `script.js`.
JavaScript numbers are modelled as `Option ℚ` with `none` playing the role of
`NaN`; the global lookup tables become an explicit `Tables` record passed to
every function; the DOM-driven `calculateFee` becomes a function of the current
dropdown selections returning `Except` (an `alert` plus early return is an
`Except.error` carrying the alert message).
-/

set_option maxHeartbeats 1000000

/-- A JavaScript number as this program can produce one: `none` is `NaN`,
`some q` is the finite value `q`.  (No path in the program creates an
infinity, so finite values plus `NaN` are enough.) -/
abbrev JSNum := Option ℚ

/-- JavaScript truthiness of a number: `NaN` and `0` are falsy, every other
number is truthy. -/
def jsTruthy : JSNum → Bool
  | none => false
  | some q => decide (q ≠ 0)

/-- Models the JavaScript expression `x || 0` where `x` is a number or
`undefined` (the outer `none`): `undefined`, `NaN` and `0` all give `0`,
any other number gives itself. -/
def jsOrZero : Option JSNum → JSNum
  | none => some 0
  | some v => if jsTruthy v then v else some 0

/-- Rational addition, written out on numerators and denominators so that the
kernel can evaluate it; `ratAdd_eq` below proves it is `ℚ` addition. -/
def ratAdd (a b : ℚ) : ℚ :=
  mkRat (a.num * b.den + b.num * a.den) (a.den * b.den)

/-- Rational multiplication in evaluable form; `ratMul_eq` proves it is `ℚ`
multiplication. -/
def ratMul (a b : ℚ) : ℚ :=
  mkRat (a.num * b.num) (a.den * b.den)

/-- Rational negation in evaluable form; `ratNeg_eq` proves it is `ℚ`
negation. -/
def ratNeg (a : ℚ) : ℚ :=
  mkRat (-a.num) a.den

/-- The ceiling of a rational in evaluable form (`⌈a/b⌉ = -⌊-a/b⌋`);
`ratCeil_eq` proves it is `Int.ceil`. -/
def ratCeil (q : ℚ) : ℤ :=
  -((-q.num).fdiv (q.den : ℤ))

/-- JavaScript `+` on numbers; `NaN` absorbs. -/
def jsAdd : JSNum → JSNum → JSNum
  | some a, some b => some (ratAdd a b)
  | _, _ => none

/-- JavaScript `*` on numbers; `NaN` absorbs. -/
def jsMul : JSNum → JSNum → JSNum
  | some a, some b => some (ratMul a b)
  | _, _ => none

/-- `Math.ceil`; `NaN` maps to `NaN`. -/
def jsCeil : JSNum → JSNum
  | none => none
  | some q => some (mkRat (ratCeil q) 1)

/-- Value of a decimal digit character, if it is one. -/
def digit? (c : Char) : Option Nat :=
  if c.isDigit then some (c.toNat - 48) else none

/-- Value of a list of digit characters; `none` as soon as one character is
not a digit.  The empty list evaluates to `0`, as both callers require. -/
def digitsVal (cs : List Char) : Option Nat :=
  cs.foldl (fun acc c =>
    match acc, digit? c with
    | some n, some d => some (n * 10 + d)
    | _, _ => none) (some 0)

/-- An unsigned decimal numeral, with an optional fractional part
(`"12"`, `"12.5"`, `".5"`, `"5."`); anything else is `none`.  The value of
`i.f` is the rational `(i·10^k + f) / 10^k` with `k` fractional digits. -/
def parseUnsigned (cs : List Char) : Option ℚ :=
  match cs.span (fun c => c != '.') with
  | (intPart, []) =>
      if intPart.isEmpty then none
      else (digitsVal intPart).map (fun n => mkRat (Int.ofNat n) 1)
  | (intPart, _ :: fracPart) =>
      if intPart.isEmpty && fracPart.isEmpty then none
      else
        match digitsVal intPart, digitsVal fracPart with
        | some n, some f =>
            some (mkRat (Int.ofNat (n * Nat.pow 10 fracPart.length + f))
              (Nat.pow 10 fracPart.length))
        | _, _ => none

/-- Modelled from the spec: the built-in JavaScript `Number(string)`
conversion the loader applies to cleaned CSV cells ("Malformed numeric cell →
becomes `NaN`").  Restricted to the forms relevant to the cells of this
program: the empty string converts to `0`, an optionally signed decimal
numeral to its value, and any other string to `NaN` (`none`). -/
def jsNumber (s : String) : JSNum :=
  if s = "" then some 0
  else
    match s.data with
    | '-' :: rest => (parseUnsigned rest).map ratNeg
    | '+' :: rest => parseUnsigned rest
    | cs => parseUnsigned cs

/-- The global lookup tables of `script.js`.  JavaScript objects and `Map`s
are modelled as insertion-ordered association lists (`setKey` below reproduces
assignment), arrays of `{value, fee}` / `{value, label}` records as lists of
pairs. -/
structure Tables where
  feeMatrix : List (String × List JSNum)
  gieOptions : List String
  nonHigherEdFees : List (String × JSNum)
  businessPartnerFees : List (String × JSNum)
  regionMultipliers : List (String × JSNum)
  fteOptions : List String
  fteIndexMap : List (String × Nat)
  twoYearGieOptions : List (String × JSNum)
  businessPartnerLevels : List (String × String)
  regions : List (String × String)
  deriving DecidableEq

/-- The initial values of the globals, before the fetch handler runs. -/
def emptyTables : Tables :=
  ⟨[], [], [], [], [], [], [], [], [], []⟩

/-- `getNonHigherEdFee`: `nonHigherEdFees.get(institutionType) || 0`. -/
def getNonHigherEdFee (t : Tables) (institutionType : String) : JSNum :=
  jsOrZero (t.nonHigherEdFees.lookup institutionType)

/-- `getBusinessPartnerFee`: `businessPartnerFees.get(level) || 0`. -/
def getBusinessPartnerFee (t : Tables) (level : String) : JSNum :=
  jsOrZero (t.businessPartnerFees.lookup level)

/-- `getRegionalFee`: `Math.ceil(baseFee * (regionMultipliers[region] || 0))`. -/
def getRegionalFee (t : Tables) (region : String) (baseFee : JSNum) : JSNum :=
  jsCeil (jsMul baseFee (jsOrZero (t.regionMultipliers.lookup region)))

/-- `getFourYearFee`: returns `0` if the GIE row is absent, otherwise indexes
the row at `fteIndexMap[fie] || 0` and returns `feeMatrix[gie][fieIndex] || 0`
(an out-of-range index reads `undefined`, modelled by the `none` of
`row[fieIndex]?`). -/
def getFourYearFee (t : Tables) (fie gie : String) : JSNum :=
  match t.feeMatrix.lookup gie with
  | none => some 0
  | some row =>
      let fieIndex := (t.fteIndexMap.lookup fie).getD 0
      jsOrZero row[fieIndex]?

/-- `getTwoYearFee`: finds the first two-year option with the given value and
returns its fee (even a `NaN` one), else `0`. -/
def getTwoYearFee (t : Tables) (gie : String) : JSNum :=
  match t.twoYearGieOptions.find? (fun option => option.1 == gie) with
  | some selectedOption => selectedOption.2
  | none => some 0

/-- The dropdown values `calculateFee` reads from the DOM; the empty string is
the falsy "nothing selected" value. -/
structure Selections where
  fie : String
  gie : String
  gieTwoYear : String
  businessLevel : String
  region : String
  deriving DecidableEq

/-- The tail of `calculateFee` after the national fee is known: regional fee
is `0` and skipped for the business-partner category, otherwise the region
must be selected and `regionalFee = getRegionalFee(region, nationalFee)`;
the total is `nationalFee + regionalFee`. -/
def applyRegional (t : Tables) (institutionType : String) (s : Selections)
    (nationalFee : JSNum) : Except String (JSNum × JSNum × JSNum) :=
  if institutionType ≠ "business-partner" then
    if s.region = "" then
      Except.error "Please select a region."
    else
      let regionalFee := getRegionalFee t s.region nationalFee
      Except.ok (nationalFee, regionalFee, jsAdd nationalFee regionalFee)
  else
    Except.ok (nationalFee, some 0, jsAdd nationalFee (some 0))

/-- `calculateFee`: dispatches on the institution type to compute the
national fee, alerting (`Except.error` with the alert text) and returning
early when a required selection is empty, then applies the regional step and
returns the triple (national, regional, total). -/
def calculateFee (t : Tables) (institutionType : String) (s : Selections) :
    Except String (JSNum × JSNum × JSNum) :=
  if institutionType = "four-year" then
    if s.fie = "" ∨ s.gie = "" then
      Except.error "Please select both FTE and GIE for four-year institutions."
    else
      applyRegional t institutionType s (getFourYearFee t s.fie s.gie)
  else if institutionType = "two-year" then
    if s.gieTwoYear = "" then
      Except.error "Please select GIE for two-year institutions."
    else
      applyRegional t institutionType s (getTwoYearFee t s.gieTwoYear)
  else if institutionType = "business-partner" then
    if s.businessLevel = "" then
      Except.error "Please select a business level."
    else
      applyRegional t institutionType s (getBusinessPartnerFee t s.businessLevel)
  else
    applyRegional t institutionType s (getNonHigherEdFee t institutionType)

/-- The three result lines of the page (`nationalFee`, `regionalFee`,
`totalFee` elements). -/
structure Outputs where
  nationalFee : JSNum
  regionalFee : JSNum
  totalFee : JSNum
  deriving DecidableEq

/-- Running `calculateFee` against the current outputs: an early `return`
(validation alert) leaves all three output values untouched, a completed run
overwrites them with the computed triple. -/
def runCalculateFee (t : Tables) (institutionType : String) (s : Selections)
    (out : Outputs) : Outputs :=
  match calculateFee t institutionType s with
  | Except.error _ => out
  | Except.ok (n, r, total) => ⟨n, r, total⟩

/-- Splits a character list at every occurrence of `sep`, the semantics of
JavaScript `String.prototype.split` with a one-character separator (the empty
input gives `[[]]`, i.e. `[""]`.) -/
def splitOnChar (sep : Char) : List Char → List (List Char)
  | [] => [[]]
  | c :: rest =>
      match splitOnChar sep rest with
      | [] => [[]]
      | group :: groups =>
          if c == sep then [] :: group :: groups
          else (c :: group) :: groups

/-- `s.split(sep)` for a one-character separator. -/
def jsSplit (sep : Char) (s : String) : List String :=
  (splitOnChar sep s.data).map String.mk

/-- Removes every double-quote character: `cell.replace(/"/g, '')`. -/
def stripQuotes (s : String) : String :=
  String.mk (s.data.filter (fun c => c != '"'))

/-- `s.trim()`: strips leading and trailing whitespace. -/
def jsTrim (s : String) : String :=
  String.mk
    (((s.data.dropWhile Char.isWhitespace).reverse.dropWhile
      Char.isWhitespace).reverse)

/-- The per-cell cleaning of the fetch handler:
`cell.replace(/"/g, '').trim()`. -/
def cleanCell (s : String) : String :=
  jsTrim (stripQuotes s)

/-- `data.split('\n').map(row => row.split(',').map(cleanCell))`. -/
def parseRows (data : String) : List (List String) :=
  (jsSplit '\n' data).map (fun row => (jsSplit ',' row).map cleanCell)

/-- Index of the first element satisfying `p`, counting from `i`. -/
def findIndexAux {α : Type} (p : α → Bool) : List α → Nat → Option Nat
  | [], _ => none
  | a :: l, i => if p a then some i else findIndexAux p l (i + 1)

/-- JavaScript `Array.prototype.findIndex`: the index of the first match, or
`-1` when there is none. -/
def jsFindIndex {α : Type} (p : α → Bool) (l : List α) : Int :=
  match findIndexAux p l 0 with
  | none => -1
  | some n => n

/-- `parseSection`: finds the row whose first cell is `header` (returning `[]`
when `findIndex` gives `-1`) and collects the following rows until a blank
row (`length === 0` or every cell empty). -/
def parseSection (rows : List (List String)) (header : String) :
    List (List String) :=
  match findIndexAux (fun row => row.head? == some header) rows 0 with
  | none => []
  | some startIndex =>
      (rows.drop (startIndex + 1)).takeWhile
        (fun row => !(row.isEmpty || row.all (fun cell => cell == "")))

/-- JavaScript assignment `m[k] = v` on an object (or `m.set(k, v)` on a
`Map`): replaces the value in place if the key exists, else appends. -/
def setKey {α : Type} (m : List (String × α)) (k : String) (v : α) :
    List (String × α) :=
  if m.any (fun p => p.1 == k) then
    m.map (fun p => if p.1 == k then (k, v) else p)
  else
    m ++ [(k, v)]

/-- `Number(row[i])`: converting a missing cell (`undefined`) gives `NaN`. -/
def jsNumAt (row : List String) (i : Nat) : JSNum :=
  match row[i]? with
  | none => none
  | some cell => jsNumber cell

/-- `s.charAt(0).toUpperCase() + s.slice(1)` (ASCII upper-casing). -/
def jsCapitalize (s : String) : String :=
  match s.data with
  | [] => ""
  | c :: rest => String.mk (c.toUpper :: rest)

/-- `fteOptions.reduce((acc, val, index) => { acc[val] = index; return acc }, {})`. -/
def buildFteIndexMap (fteOptions : List String) : List (String × Nat) :=
  fteOptions.enum.foldl (fun acc p => setKey acc p.2 p.1) []

/-- The body of the fetch handler, applied to the already-split rows.  The
four-year section is parsed first (`gieOptions`, `feeMatrix`); then
`fteOptions = rows[rows.findIndex(row => row[0] === header) + 1].slice(1)` is
read with no guard on a `-1` index, so an absent header reads `rows[0]`, and
a header on the last row reads `undefined` and throws (`.slice` on
`undefined`), leaving every later table at its initial empty value — the
`none` branch below. -/
def loadTablesFromRows (rows : List (List String)) : Tables :=
  let fourYearRows := parseSection rows "Four-Year Institution Fees"
  let gieOptions := fourYearRows.map (fun row => row.headD "")
  let feeMatrix := fourYearRows.foldl
    (fun m row => setKey m (row.headD "") ((row.drop 1).map jsNumber)) []
  match rows[(jsFindIndex
      (fun row => row.head? == some "Four-Year Institution Fees") rows
        + 1).toNat]? with
  | none =>
      { emptyTables with gieOptions := gieOptions, feeMatrix := feeMatrix }
  | some fteRow =>
      let fteOptions := fteRow.drop 1
      let fteIndexMap := buildFteIndexMap fteOptions
      let twoYearRows := parseSection rows "Two-Year Institution Fees"
      let twoYearGieOptions := twoYearRows.map
        (fun row => (row.headD "", jsNumAt row 1))
      let nonHigherEdRows := parseSection rows "Non-Higher Education Fees"
      let nonHigherEdFees := nonHigherEdRows.foldl
        (fun m row => setKey m (row.headD "") (jsNumAt row 1)) []
      let businessPartnerRows := parseSection rows "Business Partner Fees"
      let businessPartnerLevels := businessPartnerRows.map
        (fun row => (row.headD "", jsCapitalize (row.headD "")))
      let businessPartnerFees := businessPartnerRows.foldl
        (fun m row => setKey m (row.headD "") (jsNumAt row 1)) []
      let regionalMultiplierRows := parseSection rows "Regional Fee Multipliers"
      let regions := regionalMultiplierRows.map
        (fun row => (row.headD "", row.headD ""))
      let regionMultipliers := regionalMultiplierRows.foldl
        (fun m row => setKey m (row.headD "") (jsNumAt row 1)) []
      { feeMatrix := feeMatrix
        gieOptions := gieOptions
        nonHigherEdFees := nonHigherEdFees
        businessPartnerFees := businessPartnerFees
        regionMultipliers := regionMultipliers
        fteOptions := fteOptions
        fteIndexMap := fteIndexMap
        twoYearGieOptions := twoYearGieOptions
        businessPartnerLevels := businessPartnerLevels
        regions := regions }

/-- The whole table loader: split the fetched text into cleaned rows and run
the fetch-handler body on them. -/
def loadTables (data : String) : Tables :=
  loadTablesFromRows (parseRows data)

/-! ## Bridging lemmas: the evaluable arithmetic is the real arithmetic -/

theorem ratAdd_eq (a b : ℚ) : ratAdd a b = a + b := by
  have ha : (a.den : ℚ) ≠ 0 := by exact_mod_cast a.den_ne_zero
  have hb : (b.den : ℚ) ≠ 0 := by exact_mod_cast b.den_ne_zero
  conv_rhs => rw [← Rat.num_div_den a, ← Rat.num_div_den b]
  rw [div_add_div _ _ ha hb, ratAdd, Rat.mkRat_eq_div]
  push_cast
  ring_nf

theorem ratMul_eq (a b : ℚ) : ratMul a b = a * b := by
  conv_rhs => rw [← Rat.num_div_den a, ← Rat.num_div_den b]
  rw [div_mul_div_comm, ratMul, Rat.mkRat_eq_div]
  push_cast
  ring_nf

theorem ratNeg_eq (a : ℚ) : ratNeg a = -a := by
  rw [ratNeg, Rat.mkRat_eq_div]
  push_cast
  rw [neg_div, Rat.num_div_den]

theorem ratCeil_eq (q : ℚ) : ratCeil q = ⌈q⌉ := by
  rw [ratCeil, Int.fdiv_eq_ediv _ (by exact_mod_cast Nat.zero_le q.den),
    show (-q.num : ℤ) = (-q).num from (Rat.num_neg_eq_neg_num q).symm,
    show ((q.den : ℤ)) = ((-q).den : ℤ) by rw [Rat.den_neg_eq_den],
    ← Rat.floor_def, ← Int.ceil_neg, neg_neg]

theorem jsCeil_some (q : ℚ) : jsCeil (some q) = some ((⌈q⌉ : ℤ) : ℚ) := by
  show some (mkRat (ratCeil q) 1) = _
  rw [ratCeil_eq, Rat.mkRat_one]

theorem jsAdd_some (a b : ℚ) : jsAdd (some a) (some b) = some (a + b) := by
  show some (ratAdd a b) = _
  rw [ratAdd_eq]

theorem jsMul_some (a b : ℚ) : jsMul (some a) (some b) = some (a * b) := by
  show some (ratMul a b) = _
  rw [ratMul_eq]

theorem jsAdd_zero (n : JSNum) : jsAdd n (some 0) = n := by
  cases n with
  | none => rfl
  | some q => rw [jsAdd_some, add_zero]

/-- `x || 0` on a present number: the identity unless the number is `NaN`
(in particular `some 0` maps to itself). -/
theorem jsOrZero_some (v : JSNum) (hv : v ≠ none) : jsOrZero (some v) = v := by
  match v with
  | none => exact absurd rfl hv
  | some q =>
      by_cases hq : q = 0
      · subst hq; simp [jsOrZero, jsTruthy]
      · simp [jsOrZero, jsTruthy, hq]

/-! ## Concrete table states used by witnesses and counterexamples -/

/-- A small well-formed table state. -/
def sampleTables : Tables :=
  { emptyTables with
      feeMatrix := [("G1", [some 300, some 400])]
      gieOptions := ["G1"]
      nonHigherEdFees := [("k12", some 100)]
      businessPartnerFees := [("gold", some 2000)]
      regionMultipliers := [("R1", some (mkRat 2 5))]
      fteOptions := ["F1", "F2"]
      fteIndexMap := [("F1", 0), ("F2", 1)]
      twoYearGieOptions := [("T1", some 150)] }

/-- A matrix whose only cell is `NaN` (as a malformed CSV cell produces),
with the FTE label present in the index map. -/
def cexTables1 : Tables :=
  { emptyTables with feeMatrix := [("G", [none])], fteIndexMap := [("F", 0)] }

/-- A region whose stored multiplier is `NaN`. -/
def cexTables2 : Tables :=
  { emptyTables with regionMultipliers := [("R", none)] }

/-- A non-higher-ed category whose stored fee is `NaN`. -/
def cexTables3 : Tables :=
  { emptyTables with nonHigherEdFees := [("X", none)] }

/-- A matrix whose only cell is `NaN`, with an empty FTE index map. -/
def cexTables4 : Tables :=
  { emptyTables with feeMatrix := [("G", [none])] }

/-! ## C1: exact matrix lookup -/

/-- C1 (amended): for every FTE label present in the FTE index map and every
GIE label present in the fee matrix, `getFourYearFee` returns exactly the
matrix cell stored in the GIE row at the index the map assigns to the FTE
label, provided that cell is not `NaN`; a stored `NaN` cell is coerced to `0`
by the `|| 0` guard. -/
theorem getFourYearFee_exact (t : Tables) (fie gie : String) (idx : Nat)
    (row : List JSNum) (cell : JSNum)
    (hidx : t.fteIndexMap.lookup fie = some idx)
    (hrow : t.feeMatrix.lookup gie = some row)
    (hcell : row[idx]? = some cell) (hnan : cell ≠ none) :
    getFourYearFee t fie gie = cell := by
  unfold getFourYearFee
  rw [hrow]
  simp only [hidx, Option.getD_some]
  rw [hcell]
  exact jsOrZero_some cell hnan

/-- C1 witness: in `sampleTables`, FTE label `F2` has index 1 and row `G1`
stores 400 there; the lookup returns it. -/
theorem getFourYearFee_exact_witness :
    getFourYearFee sampleTables "F2" "G1" = some 400 :=
  getFourYearFee_exact sampleTables "F2" "G1" 1 [some 300, some 400]
    (some 400) (by decide) (by decide) (by decide) (by decide)

/-- C1 counterexample: with the FTE label present (index 0) and the GIE row
present but storing `NaN`, the function returns `0`, not the stored cell. -/
theorem getFourYearFee_nan_cell_cex :
    cexTables1.fteIndexMap.lookup "F" = some 0 ∧
    cexTables1.feeMatrix.lookup "G" = some [none] ∧
    getFourYearFee cexTables1 "F" "G" = some 0 ∧
    getFourYearFee cexTables1 "F" "G" ≠ none := by decide

/-! ## C2: regional fee -/

/-- C2 (amended): `getRegionalFee region base = ceil(base * m)` where `m` is
the stored multiplier whenever that multiplier is not `NaN`; when the region
is absent — or its stored multiplier is `NaN`, which the `|| 0` guard also
sends to `0` — the multiplier used is `0`. -/
theorem getRegionalFee_ceil (t : Tables) (region : String) (base : JSNum)
    (m : JSNum) :
    (t.regionMultipliers.lookup region = some m → m ≠ none →
      getRegionalFee t region base = jsCeil (jsMul base m)) ∧
    (t.regionMultipliers.lookup region = none →
      getRegionalFee t region base = jsCeil (jsMul base (some 0))) ∧
    (t.regionMultipliers.lookup region = some none →
      getRegionalFee t region base = jsCeil (jsMul base (some 0))) := by
  refine ⟨?_, ?_, ?_⟩
  · intro hm hnan
    unfold getRegionalFee
    rw [hm, jsOrZero_some m hnan]
  · intro hm
    unfold getRegionalFee
    rw [hm]
    rfl
  · intro hm
    unfold getRegionalFee
    rw [hm]
    rfl

/-- C2 witness: multiplier 2/5 on base 400 gives `ceil(160) = 160`. -/
theorem getRegionalFee_ceil_witness :
    getRegionalFee sampleTables "R1" (some 400) = some 160 ∧
    jsCeil (jsMul (some 400) (some (mkRat 2 5))) = some 160 := by
  have h := (getRegionalFee_ceil sampleTables "R1" (some 400)
    (some (mkRat 2 5))).1 (by decide) (by decide)
  exact ⟨h.trans (by decide), by decide⟩

/-- C2 counterexample: with a stored `NaN` multiplier the code computes
`ceil(1 * 0) = 0`, not `ceil(1 * NaN) = NaN` as the claim's formula gives. -/
theorem getRegionalFee_nan_multiplier_cex :
    cexTables2.regionMultipliers.lookup "R" = some none ∧
    getRegionalFee cexTables2 "R" (some 1) ≠ jsCeil (jsMul (some 1) none) ∧
    getRegionalFee cexTables2 "R" (some 1) = some 0 := by decide

/-! ## C3: flat-fee lookups -/

/-- C3 (amended): for labels absent from the corresponding table each of the
three flat lookups returns `0` (they are total functions — nothing throws);
for present labels `getTwoYearFee` returns the stored fee exactly (`NaN`
included), while `getNonHigherEdFee` and `getBusinessPartnerFee` return the
stored fee only when it is not `NaN`, coercing a stored `NaN` to `0`. -/
theorem flatFee_lookup (t : Tables) (label : String) (fee : JSNum) :
    (t.nonHigherEdFees.lookup label = none →
      getNonHigherEdFee t label = some 0) ∧
    (t.businessPartnerFees.lookup label = none →
      getBusinessPartnerFee t label = some 0) ∧
    (t.twoYearGieOptions.find? (fun option => option.1 == label) = none →
      getTwoYearFee t label = some 0) ∧
    (t.nonHigherEdFees.lookup label = some fee → fee ≠ none →
      getNonHigherEdFee t label = fee) ∧
    (t.businessPartnerFees.lookup label = some fee → fee ≠ none →
      getBusinessPartnerFee t label = fee) ∧
    (∀ value, t.twoYearGieOptions.find? (fun option => option.1 == label) =
      some (value, fee) → getTwoYearFee t label = fee) := by
  refine ⟨?_, ?_, ?_, ?_, ?_, ?_⟩
  · intro hm; unfold getNonHigherEdFee; rw [hm]; rfl
  · intro hm; unfold getBusinessPartnerFee; rw [hm]; rfl
  · intro hm; unfold getTwoYearFee; rw [hm]
  · intro hm hnan; unfold getNonHigherEdFee; rw [hm]
    exact jsOrZero_some fee hnan
  · intro hm hnan; unfold getBusinessPartnerFee; rw [hm]
    exact jsOrZero_some fee hnan
  · intro value hm; unfold getTwoYearFee; rw [hm]

/-- C3 witness: absent labels give `0` everywhere; present labels give the
stored flat fee. -/
theorem flatFee_lookup_witness :
    getNonHigherEdFee sampleTables "nope" = some 0 ∧
    getBusinessPartnerFee sampleTables "gold" = some 2000 ∧
    getTwoYearFee sampleTables "T1" = some 150 := by
  refine ⟨?_, ?_, ?_⟩
  · exact (flatFee_lookup sampleTables "nope" none).1 (by decide)
  · exact (flatFee_lookup sampleTables "gold" (some 2000)).2.2.2.2.1
      (by decide) (by decide)
  · exact (flatFee_lookup sampleTables "T1" (some 150)).2.2.2.2.2 "T1"
      (by decide)

/-- C3 counterexample: a present label whose stored fee is `NaN` makes
`getNonHigherEdFee` return `0`, not the stored fee. -/
theorem flatFee_nan_cex :
    cexTables3.nonHigherEdFees.lookup "X" = some none ∧
    getNonHigherEdFee cexTables3 "X" = some 0 ∧
    getNonHigherEdFee cexTables3 "X" ≠ none := by decide

/-! ## C4: unknown FTE label resolves to column 0 -/

/-- C4 (amended): an FTE label absent from the index map resolves to column
index 0, so for a present GIE row the result is the value stored at index 0
when that value is not `NaN` (a `NaN` there yields `0` through `|| 0`); when
the GIE row is absent the result is `0` regardless of the FTE label. -/
theorem getFourYearFee_default_index (t : Tables) (fie gie : String)
    (row : List JSNum) :
    (t.feeMatrix.lookup gie = none → getFourYearFee t fie gie = some 0) ∧
    (∀ cell, t.fteIndexMap.lookup fie = none →
      t.feeMatrix.lookup gie = some row → row[0]? = some cell →
      cell ≠ none → getFourYearFee t fie gie = cell) ∧
    (t.fteIndexMap.lookup fie = none → t.feeMatrix.lookup gie = some row →
      row[0]? = some none → getFourYearFee t fie gie = some 0) := by
  refine ⟨?_, ?_, ?_⟩
  · intro hg
    unfold getFourYearFee
    rw [hg]
  · intro cell hf hg hcell hnan
    unfold getFourYearFee
    rw [hg]
    simp only [hf, Option.getD_none]
    rw [hcell]
    exact jsOrZero_some cell hnan
  · intro hf hg hcell
    unfold getFourYearFee
    rw [hg]
    simp only [hf, Option.getD_none]
    rw [hcell]
    rfl

/-- C4 witness: the unknown label `zz` resolves to column 0 of row `G1`
(value 300); an absent GIE row gives `0`. -/
theorem getFourYearFee_default_index_witness :
    getFourYearFee sampleTables "zz" "G1" = some 300 ∧
    getFourYearFee sampleTables "F1" "nope" = some 0 := by
  constructor
  · exact (getFourYearFee_default_index sampleTables "zz" "G1"
      [some 300, some 400]).2.1 (some 300) (by decide) (by decide)
      (by decide) (by decide)
  · exact (getFourYearFee_default_index sampleTables "F1" "nope" []).1
      (by decide)

/-- C4 counterexample: with an unknown FTE label and a present GIE row whose
value at index 0 is `NaN`, the function returns `0`, not that value. -/
theorem getFourYearFee_unknown_fte_nan_cex :
    cexTables4.fteIndexMap.lookup "F" = none ∧
    cexTables4.feeMatrix.lookup "G" = some [none] ∧
    getFourYearFee cexTables4 "F" "G" = some 0 ∧
    getFourYearFee cexTables4 "F" "G" ≠ none := by decide

/-! ## C5: dispatch and total -/

/-- C5: with a complete set of selections the calculation dispatches by
category to the matching lookup for the national fee; the total is national
plus regional, and for the business-partner category the regional step is
skipped, the regional fee is `0` and the total equals the national fee. -/
theorem calculateFee_dispatch (t : Tables) (s : Selections) :
    (s.fie ≠ "" → s.gie ≠ "" → s.region ≠ "" →
      calculateFee t "four-year" s =
        Except.ok (getFourYearFee t s.fie s.gie,
          getRegionalFee t s.region (getFourYearFee t s.fie s.gie),
          jsAdd (getFourYearFee t s.fie s.gie)
            (getRegionalFee t s.region (getFourYearFee t s.fie s.gie)))) ∧
    (s.gieTwoYear ≠ "" → s.region ≠ "" →
      calculateFee t "two-year" s =
        Except.ok (getTwoYearFee t s.gieTwoYear,
          getRegionalFee t s.region (getTwoYearFee t s.gieTwoYear),
          jsAdd (getTwoYearFee t s.gieTwoYear)
            (getRegionalFee t s.region (getTwoYearFee t s.gieTwoYear)))) ∧
    (s.businessLevel ≠ "" →
      calculateFee t "business-partner" s =
        Except.ok (getBusinessPartnerFee t s.businessLevel, some 0,
          getBusinessPartnerFee t s.businessLevel)) ∧
    (∀ ty : String, ty ≠ "four-year" → ty ≠ "two-year" →
      ty ≠ "business-partner" → s.region ≠ "" →
      calculateFee t ty s =
        Except.ok (getNonHigherEdFee t ty,
          getRegionalFee t s.region (getNonHigherEdFee t ty),
          jsAdd (getNonHigherEdFee t ty)
            (getRegionalFee t s.region (getNonHigherEdFee t ty)))) := by
  refine ⟨?_, ?_, ?_, ?_⟩
  · intro hfie hgie hr
    rw [calculateFee, if_pos rfl, if_neg (fun h => h.elim hfie hgie),
      applyRegional,
      if_pos (show ("four-year" : String) ≠ "business-partner" by decide),
      if_neg hr]
  · intro hgie hr
    rw [calculateFee, if_neg (by decide), if_pos rfl, if_neg hgie,
      applyRegional,
      if_pos (show ("two-year" : String) ≠ "business-partner" by decide),
      if_neg hr]
  · intro hb
    rw [calculateFee, if_neg (by decide), if_neg (by decide), if_pos rfl,
      if_neg hb, applyRegional, if_neg (by decide), jsAdd_zero]
  · intro ty h1 h2 h3 hr
    rw [calculateFee, if_neg h1, if_neg h2, if_neg h3, applyRegional,
      if_pos h3, if_neg hr]

/-- Selections with every dropdown filled, used by the C5 witness. -/
def fullSelections : Selections :=
  ⟨"F2", "G1", "T1", "gold", "R1"⟩

/-- C5 witness: all four dispatch branches evaluated on `sampleTables`. -/
theorem calculateFee_dispatch_witness :
    calculateFee sampleTables "four-year" fullSelections =
      Except.ok (some 400, some 160, some 560) ∧
    calculateFee sampleTables "two-year" fullSelections =
      Except.ok (some 150, some 60, some 210) ∧
    calculateFee sampleTables "business-partner" fullSelections =
      Except.ok (some 2000, some 0, some 2000) ∧
    calculateFee sampleTables "k12" fullSelections =
      Except.ok (some 100, some 40, some 140) := by
  have h := calculateFee_dispatch sampleTables fullSelections
  exact ⟨(h.1 (by decide) (by decide) (by decide)).trans (by rfl),
    (h.2.1 (by decide) (by decide)).trans (by rfl),
    (h.2.2.1 (by decide)).trans (by rfl),
    (h.2.2.2 "k12" (by decide) (by decide) (by decide) (by decide)).trans
      (by rfl)⟩

/-! ## C6: validation failures leave the outputs untouched -/

/-- C6: whenever a required selection for the chosen category is empty, the
calculation stops with the validation message naming the missing field and
the three displayed output values are left unchanged. -/
theorem calculateFee_validation (t : Tables) (s : Selections) (out : Outputs) :
    (s.fie = "" ∨ s.gie = "" →
      calculateFee t "four-year" s =
        Except.error
          "Please select both FTE and GIE for four-year institutions." ∧
      runCalculateFee t "four-year" s out = out) ∧
    (s.fie ≠ "" → s.gie ≠ "" → s.region = "" →
      calculateFee t "four-year" s = Except.error "Please select a region." ∧
      runCalculateFee t "four-year" s out = out) ∧
    (s.gieTwoYear = "" →
      calculateFee t "two-year" s =
        Except.error "Please select GIE for two-year institutions." ∧
      runCalculateFee t "two-year" s out = out) ∧
    (s.gieTwoYear ≠ "" → s.region = "" →
      calculateFee t "two-year" s = Except.error "Please select a region." ∧
      runCalculateFee t "two-year" s out = out) ∧
    (s.businessLevel = "" →
      calculateFee t "business-partner" s =
        Except.error "Please select a business level." ∧
      runCalculateFee t "business-partner" s out = out) ∧
    (∀ ty : String, ty ≠ "four-year" → ty ≠ "two-year" →
      ty ≠ "business-partner" → s.region = "" →
      calculateFee t ty s = Except.error "Please select a region." ∧
      runCalculateFee t ty s out = out) := by
  refine ⟨?_, ?_, ?_, ?_, ?_, ?_⟩
  · intro hor
    have h : calculateFee t "four-year" s =
        Except.error
          "Please select both FTE and GIE for four-year institutions." := by
      rw [calculateFee, if_pos rfl, if_pos hor]
    exact ⟨h, by rw [runCalculateFee, h]⟩
  · intro hfie hgie hr
    have h : calculateFee t "four-year" s =
        Except.error "Please select a region." := by
      rw [calculateFee, if_pos rfl, if_neg (fun h => h.elim hfie hgie),
        applyRegional,
        if_pos (show ("four-year" : String) ≠ "business-partner" by decide),
        if_pos hr]
    exact ⟨h, by rw [runCalculateFee, h]⟩
  · intro hgie
    have h : calculateFee t "two-year" s =
        Except.error "Please select GIE for two-year institutions." := by
      rw [calculateFee, if_neg (by decide), if_pos rfl, if_pos hgie]
    exact ⟨h, by rw [runCalculateFee, h]⟩
  · intro hgie hr
    have h : calculateFee t "two-year" s =
        Except.error "Please select a region." := by
      rw [calculateFee, if_neg (by decide), if_pos rfl, if_neg hgie,
        applyRegional,
        if_pos (show ("two-year" : String) ≠ "business-partner" by decide),
        if_pos hr]
    exact ⟨h, by rw [runCalculateFee, h]⟩
  · intro hb
    have h : calculateFee t "business-partner" s =
        Except.error "Please select a business level." := by
      rw [calculateFee, if_neg (by decide), if_neg (by decide), if_pos rfl,
        if_pos hb]
    exact ⟨h, by rw [runCalculateFee, h]⟩
  · intro ty h1 h2 h3 hr
    have h : calculateFee t ty s =
        Except.error "Please select a region." := by
      rw [calculateFee, if_neg h1, if_neg h2, if_neg h3, applyRegional,
        if_pos h3, if_pos hr]
    exact ⟨h, by rw [runCalculateFee, h]⟩

/-- Selections with every dropdown empty, used by the C6 witness. -/
def noSelections : Selections :=
  ⟨"", "", "", "", ""⟩

/-- Arbitrary pre-existing output values, used by the C6 witness. -/
def priorOutputs : Outputs :=
  ⟨some 1, some 2, some 3⟩

/-- C6 witness: with empty selections the four-year and business-partner
branches report their validation messages and the outputs stay unchanged. -/
theorem calculateFee_validation_witness :
    calculateFee sampleTables "four-year" noSelections =
      Except.error
        "Please select both FTE and GIE for four-year institutions." ∧
    runCalculateFee sampleTables "four-year" noSelections priorOutputs =
      priorOutputs ∧
    calculateFee sampleTables "business-partner" noSelections =
      Except.error "Please select a business level." := by
  have h := calculateFee_validation sampleTables noSelections priorOutputs
  exact ⟨(h.1 (Or.inl rfl)).1, (h.1 (Or.inl rfl)).2, (h.2.2.2.2.1 rfl).1⟩

/-! ## Loader lemmas -/

/-- `findIndexAux` finds nothing when no element matches. -/
theorem findIndexAux_eq_none {α : Type} (p : α → Bool) :
    ∀ (l : List α) (i : Nat), (∀ a ∈ l, p a = false) →
      findIndexAux p l i = none
  | [], _, _ => rfl
  | a :: l, i, h => by
      have ha : p a = false := h a (List.mem_cons_self a l)
      simp only [findIndexAux, ha, Bool.false_eq_true, if_false]
      exact findIndexAux_eq_none p l (i + 1)
        (fun b hb => h b (List.mem_cons_of_mem a hb))

/-- JavaScript `findIndex` returns `-1` when no element matches. -/
theorem jsFindIndex_eq_neg_one {α : Type} (p : α → Bool) (l : List α)
    (h : ∀ a ∈ l, p a = false) : jsFindIndex p l = -1 := by
  unfold jsFindIndex
  rw [findIndexAux_eq_none p l 0 h]

/-- A section whose header row is absent parses to the empty list. -/
theorem parseSection_eq_nil (rows : List (List String)) (header : String)
    (h : ∀ r ∈ rows, r.head? ≠ some header) :
    parseSection rows header = [] := by
  have hfind :
      findIndexAux (fun row => row.head? == some header) rows 0 = none :=
    findIndexAux_eq_none _ rows 0
      (fun r hr => by rw [beq_eq_false_iff_ne]; exact h r hr)
  unfold parseSection
  rw [hfind]

/-! ## C7: absent section headers -/

/-- C7 (amended): when a section header row is absent the loader silently
produces empty structures for the five sections parsed via `parseSection`
(fee matrix, GIE option list, two-year options, non-higher-ed fees,
business-partner fees and levels, region multipliers and regions); the FTE
option list and index map, however, are read from
`rows[findIndex(...) + 1].slice(1)` with no guard on the `-1` of a missing
"Four-Year Institution Fees" header, so they come from the first row of the
input and need not be empty. -/
theorem loadTables_missing_sections (data : String) :
    ((∀ r ∈ parseRows data, r.head? ≠ some "Four-Year Institution Fees") →
      (loadTables data).feeMatrix = [] ∧
      (loadTables data).gieOptions = [] ∧
      (loadTables data).fteOptions = ((parseRows data).headD []).drop 1 ∧
      (loadTables data).fteIndexMap =
        buildFteIndexMap (((parseRows data).headD []).drop 1)) ∧
    ((∀ r ∈ parseRows data, r.head? ≠ some "Two-Year Institution Fees") →
      (loadTables data).twoYearGieOptions = []) ∧
    ((∀ r ∈ parseRows data, r.head? ≠ some "Non-Higher Education Fees") →
      (loadTables data).nonHigherEdFees = []) ∧
    ((∀ r ∈ parseRows data, r.head? ≠ some "Business Partner Fees") →
      (loadTables data).businessPartnerFees = [] ∧
      (loadTables data).businessPartnerLevels = []) ∧
    ((∀ r ∈ parseRows data, r.head? ≠ some "Regional Fee Multipliers") →
      (loadTables data).regionMultipliers = [] ∧
      (loadTables data).regions = []) := by
  refine ⟨?_, ?_, ?_, ?_, ?_⟩
  · intro h
    have hps := parseSection_eq_nil (parseRows data)
      "Four-Year Institution Fees" h
    have hfind := jsFindIndex_eq_neg_one
      (fun row : List String => row.head? == some "Four-Year Institution Fees")
      (parseRows data)
      (fun r hr => by rw [beq_eq_false_iff_ne]; exact h r hr)
    have htoNat : ((-1 : Int) + 1).toNat = 0 := by decide
    refine ⟨?_, ?_, ?_, ?_⟩ <;>
      · simp only [loadTables, loadTablesFromRows, hps, hfind, htoNat,
          List.map_nil, List.foldl_nil]
        cases hrows : parseRows data with
        | nil => simp [emptyTables, buildFteIndexMap]
        | cons r rs => simp [emptyTables, buildFteIndexMap]
  · intro h
    have hps := parseSection_eq_nil (parseRows data)
      "Two-Year Institution Fees" h
    simp only [loadTables, loadTablesFromRows, hps, List.map_nil]
    split
    · rfl
    · rfl
  · intro h
    have hps := parseSection_eq_nil (parseRows data)
      "Non-Higher Education Fees" h
    simp only [loadTables, loadTablesFromRows, hps, List.foldl_nil]
    split
    · rfl
    · rfl
  · intro h
    have hps := parseSection_eq_nil (parseRows data)
      "Business Partner Fees" h
    constructor <;>
      · simp only [loadTables, loadTablesFromRows, hps, List.map_nil,
          List.foldl_nil]
        split
        · rfl
        · rfl
  · intro h
    have hps := parseSection_eq_nil (parseRows data)
      "Regional Fee Multipliers" h
    constructor <;>
      · simp only [loadTables, loadTablesFromRows, hps, List.map_nil,
          List.foldl_nil]
        split
        · rfl
        · rfl

/-- C7 witness: in the text `"a,b"` every section header is absent and all
five `parseSection`-driven tables load empty. -/
theorem loadTables_missing_sections_witness :
    (loadTables "a,b").feeMatrix = [] ∧
    (loadTables "a,b").twoYearGieOptions = [] ∧
    (loadTables "a,b").nonHigherEdFees = [] ∧
    (loadTables "a,b").businessPartnerFees = [] ∧
    (loadTables "a,b").regionMultipliers = [] := by
  have h := loadTables_missing_sections "a,b"
  exact ⟨(h.1 (by decide)).1, h.2.1 (by decide), h.2.2.1 (by decide),
    (h.2.2.2.1 (by decide)).1, (h.2.2.2.2 (by decide)).1⟩

/-- C7 counterexample: the text `"a,b"` has no "Four-Year Institution Fees"
header, yet the FTE option list loads as `["b"]` (the first row read through
the unguarded `rows[-1 + 1]`), not as an empty structure. -/
theorem missing_header_fteOptions_cex :
    ((parseRows "a,b").all
      (fun r => !(r.head? == some "Four-Year Institution Fees"))) = true ∧
    (loadTables "a,b").fteOptions = ["b"] ∧
    (loadTables "a,b").fteIndexMap = [("b", 0)] := by decide

/-! ## C8: NaN propagation -/

/-- `NaN * x = NaN`. -/
theorem jsMul_nan (x : JSNum) : jsMul none x = none := by
  cases x <;> rfl

/-- `NaN + x = NaN`. -/
theorem jsAdd_nan (x : JSNum) : jsAdd none x = none := by
  cases x <;> rfl

/-- C8 (amended): a malformed numeric cell loads as `NaN`, but only the
two-year path propagates it: when the selected two-year option stores a `NaN`
fee, the whole calculation returns `NaN` for national, regional and total
fee.  (The four-year, non-higher-ed, business-partner and multiplier entries
are instead coerced to `0` by their `|| 0` guards — see the counterexample.) -/
theorem calculateFee_twoYear_nan (t : Tables) (s : Selections)
    (p : String × JSNum) (hgie : s.gieTwoYear ≠ "") (hr : s.region ≠ "")
    (hfind : t.twoYearGieOptions.find?
      (fun option => option.1 == s.gieTwoYear) = some p)
    (hnan : p.2 = none) :
    calculateFee t "two-year" s = Except.ok (none, none, none) := by
  have hnat : getTwoYearFee t s.gieTwoYear = none := by
    unfold getTwoYearFee
    rw [hfind]
    exact hnan
  have hreg : getRegionalFee t s.region none = none := by
    unfold getRegionalFee
    rw [jsMul_nan]
    rfl
  rw [calculateFee, if_neg (by decide), if_pos rfl, if_neg hgie,
    applyRegional,
    if_pos (show ("two-year" : String) ≠ "business-partner" by decide),
    if_neg hr, hnat]
  show Except.ok (none, getRegionalFee t s.region none,
    jsAdd none (getRegionalFee t s.region none)) = _
  rw [hreg, jsAdd_nan]

/-- The CSV text of a two-year section whose fee cell is malformed. -/
def twoYearNanText : String :=
  "Two-Year Institution Fees\nG,abc"

/-- C8 witness: loading `twoYearNanText` stores a `NaN` fee for `G`, and the
two-year calculation on it returns `NaN` everywhere. -/
theorem calculateFee_twoYear_nan_witness :
    calculateFee (loadTables twoYearNanText) "two-year"
      ⟨"", "", "G", "", "R"⟩ = Except.ok (none, none, none) :=
  calculateFee_twoYear_nan (loadTables twoYearNanText) ⟨"", "", "G", "", "R"⟩
    ("G", none) (by decide) (by decide) (by decide) rfl

/-- The CSV text of a four-year section whose fee cell is malformed. -/
def fourYearNanText : String :=
  "Four-Year Institution Fees\nX,F\nG,abc"

/-- C8 counterexample: loading `fourYearNanText` stores the `NaN` entry in
the matrix (so the claim's first half holds), but the four-year fee that uses
it is `0`, not `NaN` — the `|| 0` guard stops the propagation. -/
theorem fourYear_nan_swallowed_cex :
    (loadTables fourYearNanText).feeMatrix.lookup "G" = some [none] ∧
    (loadTables fourYearNanText).fteIndexMap.lookup "F" = some 0 ∧
    getFourYearFee (loadTables fourYearNanText) "F" "G" = some 0 ∧
    getFourYearFee (loadTables fourYearNanText) "F" "G" ≠ none := by decide

/-! ## C9: the loader is deterministic -/

/-- C9: loading the same source text twice yields identical tables — the
loader's output is a function of the input text alone. -/
theorem loadTables_deterministic (d1 d2 : String) (h : d1 = d2) :
    loadTables d1 = loadTables d2 := by
  rw [h]

/-- C9 witness: two loads of the same concrete text coincide. -/
theorem loadTables_deterministic_witness :
    loadTables twoYearNanText = loadTables twoYearNanText :=
  loadTables_deterministic twoYearNanText twoYearNanText rfl

/-! ## C10: falsy cells read as zero -/

/-- A matrix whose row is shorter than the resolved FTE index. -/
def oobTables : Tables :=
  { emptyTables with feeMatrix := [("G", [some 5])], fteIndexMap := [("F", 3)] }

/-- C10: with the GIE row present, an out-of-range resolved column index, a
stored `NaN` cell, or a stored `0` cell all make `getFourYearFee` return `0`
(never `undefined` or `NaN`, and the out-of-range read cannot throw), so a
stored falsy cell is indistinguishable from an absent one. -/
theorem getFourYearFee_falsy_to_zero (t : Tables) (fie gie : String)
    (row : List JSNum) (hrow : t.feeMatrix.lookup gie = some row)
    (h : row.length ≤ (t.fteIndexMap.lookup fie).getD 0 ∨
      row[(t.fteIndexMap.lookup fie).getD 0]? = some none ∨
      row[(t.fteIndexMap.lookup fie).getD 0]? = some (some 0)) :
    getFourYearFee t fie gie = some 0 := by
  unfold getFourYearFee
  rw [hrow]
  show jsOrZero row[(t.fteIndexMap.lookup fie).getD 0]? = some 0
  rcases h with h | h | h
  · rw [List.getElem?_eq_none h]
    rfl
  · rw [h]
    rfl
  · rw [h]
    simp [jsOrZero, jsTruthy]

/-- C10 witness: an out-of-range index (row of length 1, index 3) and a `NaN`
cell both read as `0`. -/
theorem getFourYearFee_falsy_to_zero_witness :
    getFourYearFee oobTables "F" "G" = some 0 ∧
    getFourYearFee cexTables1 "F" "G" = some 0 :=
  ⟨getFourYearFee_falsy_to_zero oobTables "F" "G" [some 5] (by decide)
      (Or.inl (by decide)),
    getFourYearFee_falsy_to_zero cexTables1 "F" "G" [none] (by decide)
      (Or.inr (Or.inl (by decide)))⟩
